import Mathlib

/-!
Shallow embedding of the trail search and filter-composition engine of
`src/models/TrailSearch.js` (function `searchTrails` together with its
helpers `addParam`, `addDistanceFilters`, `addElevationFilters`), and
proofs about it.

JavaScript values that flow through the filter map are modelled by the
inductive type `JSVal`; numbers are modelled by `Rat` (exact for every
numeric literal appearing in the claims; IEEE-754 rounding is out of
scope).  A JS object used as a filter map is modelled as an association
list in insertion order (all keys involved are non-integer-like strings,
so `Object.keys` returns them in insertion order).  The generated WHERE
clause is modelled as a list of `Frag` fragments; `fragToString` renders
each fragment as the source's template literal (with the inner whitespace
of multi-line template literals normalised to single spaces, which no
claim depends on).

The JS string primitives used by the source (`split(' ')`, `trim`,
`join`, `toLowerCase`, `startsWith`, `slice`) are implemented here by
structural recursion over the string's character list so that every
definition evaluates inside the kernel.
-/

namespace TrailWanderer

/-- Splits a character list at every occurrence of `sep`, the way JS
`String.prototype.split` does: `n` separators always yield `n + 1`
(possibly empty) pieces. -/
def splitCharsOn (sep : Char) : List Char → List (List Char)
  | [] => [[]]
  | c :: cs =>
    match splitCharsOn sep cs, decide (c = sep) with
    | rest, true => [] :: rest
    | [], false => [[c]]
    | t :: ts, false => (c :: t) :: ts

/-- JS `s.split(sep)` for a one-character separator. -/
def jsSplit (s : String) (sep : Char) : List String :=
  (splitCharsOn sep s.data).map String.mk

/-- JS `s.trim()`: removes leading and trailing whitespace. -/
def jsTrim (s : String) : String :=
  String.mk (((s.data.dropWhile Char.isWhitespace).reverse.dropWhile
    Char.isWhitespace).reverse)

/-- JS `array.join(sep)`. -/
def joinSep (sep : String) : List String → String
  | [] => ""
  | [x] => x
  | x :: y :: xs => x ++ sep ++ joinSep sep (y :: xs)

/-- JS `s.toLowerCase()` (also the semantics given to SQL `LOWER`):
character-wise lower-casing. -/
def strToLower (s : String) : String :=
  String.mk (s.data.map Char.toLower)

/-- JS `s.startsWith(pre)`. -/
def strStartsWith (s pre : String) : Bool :=
  s.data.take pre.data.length == pre.data

/-- JS `s.slice(0, n)`. -/
def strSlice0 (s : String) (n : Nat) : String :=
  String.mk (s.data.take n)

/-- A JavaScript value as it can appear in the `filters` object:
a number, the number NaN, a string, an array of strings, or `undefined`. -/
inductive JSVal where
  | num (q : Rat)
  | nan
  | str (s : String)
  | arr (elems : List String)
  | undefined
deriving DecidableEq, Repr

/-- A filter map: a JS object in insertion order. -/
abbrev FilterMap := List (String × JSVal)

/-- `filters[k]`: first binding of `k`, `none` when the property is absent. -/
def getVal (fm : FilterMap) (k : String) : Option JSVal :=
  (fm.find? (fun p => p.1 == k)).map (fun p => p.2)

/-- Reading an absent property yields `undefined`. -/
def jsValOrUndefined (fm : FilterMap) (k : String) : JSVal :=
  (getVal fm k).getD .undefined

/-- `filters[k] = v`: overwrite the existing binding, or append a new one. -/
def setVal (fm : FilterMap) (k : String) (v : JSVal) : FilterMap :=
  if (fm.find? (fun p => p.1 == k)).isSome then
    fm.map (fun p => if p.1 == k then (k, v) else p)
  else
    fm ++ [(k, v)]

/-- `delete filters[k]`. -/
def delVal (fm : FilterMap) (k : String) : FilterMap :=
  fm.filter (fun p => ! (p.1 == k))

/-- JS truthiness of `filters[k]` (as in `if (!filters[key]) continue`):
absent, `undefined`, `NaN`, `0` and `""` are falsy; arrays are truthy. -/
def truthy : Option JSVal → Bool
  | none => false
  | some (.num q) => ! (q == 0)
  | some .nan => false
  | some (.str s) => ! (s == "")
  | some (.arr _) => true
  | some .undefined => false

/-- The numeric value of a non-empty all-digit character list. -/
def natOfDigits (cs : List Char) : Nat :=
  cs.foldl (fun n c => n * 10 + (c.toNat - '0'.toNat)) 0

/-- `Number(string)` restricted to optionally-signed decimal literals with an
optional fractional part (`none` = NaN).  The whole-string trim and the
`"" → 0` rule follow JS; exotic forms (hex, exponents, `Infinity`) are not
produced by any input considered here and are mapped to NaN. -/
def jsStrToNum (s : String) : Option Rat :=
  let t := jsTrim s
  if t == "" then some 0
  else
    let (sign, body) :=
      if strStartsWith t "-" then ((-1 : Rat), t.data.drop 1)
      else if strStartsWith t "+" then ((1 : Rat), t.data.drop 1)
      else ((1 : Rat), t.data)
    match splitCharsOn '.' body with
    | [intPart] =>
      if intPart ≠ [] ∧ intPart.all Char.isDigit then
        some (sign * (natOfDigits intPart : Rat))
      else none
    | [intPart, fracPart] =>
      if (intPart ≠ [] ∨ fracPart ≠ []) ∧ intPart.all Char.isDigit ∧
          fracPart.all Char.isDigit then
        some (sign * ((natOfDigits intPart : Rat) +
          (natOfDigits fracPart : Rat) / ((10 : Rat) ^ fracPart.length)))
      else none
    | _ => none

/-- JS `ToPrimitive` for the values modelled here: an array converts to its
comma-joined string (`Array.prototype.toString`), everything else is
already primitive. -/
def toPrimitive : JSVal → JSVal
  | .arr xs => .str (joinSep "," xs)
  | v => v

/-- JS `ToNumber` of a (possibly absent) value; `none` represents NaN. -/
def jsToNumber : Option JSVal → Option Rat
  | none => none
  | some (.num q) => some q
  | some .nan => none
  | some (.str s) => jsStrToNum s
  | some (.arr xs) => jsStrToNum (joinSep "," xs)
  | some .undefined => none

/-- JS relational `a > b` on (possibly absent) values: two strings compare
lexicographically, otherwise both sides convert to numbers and any NaN
makes the comparison false. -/
def jsGt (a b : Option JSVal) : Bool :=
  match a.map toPrimitive, b.map toPrimitive with
  | some (.str x), some (.str y) => decide (y < x)
  | a', b' =>
    match jsToNumber a', jsToNumber b' with
    | some x, some y => decide (y < x)
    | _, _ => false

/-- JS loose equality `x == NaN` is false for every `x` (NaN is not loosely
equal to any value, including itself). -/
def jsLooseEqNaN : Option Rat → Bool
  | none => false
  | some _ => false

/-- The condition `Number(filters[key]) != NaN` from the generic dispatch
branch (src/models/TrailSearch.js:129).  Because nothing is loosely equal
to NaN, it holds for every value, so the `LOWER (...)` alternative of the
ternary below it is unreachable. -/
def numberNeNaN (v : JSVal) : Bool :=
  ! jsLooseEqNaN (jsToNumber (some v))

/-- A character kept by `word.replace(/[^\w\s]/gi, '')`: word characters
(`[A-Za-z0-9_]`) and whitespace survive, everything else is removed. -/
def isWordOrSpace (c : Char) : Bool :=
  c.isAlphanum || c = '_' || c.isWhitespace

/-- `word.replace(/[^\w\s]/gi, '')`. -/
def stripNonWordChars (w : String) : String :=
  String.mk (w.toList.filter isWordOrSpace)

/-- The token list of the search-term sanitizer
(src/models/TrailSearch.js:81-85): split on single spaces, keep tokens
that are non-empty after trimming, then strip non-word characters from
each survivor.  Note the emptiness filter runs before the stripping. -/
def sanitizeTokens (s : String) : List String :=
  ((jsSplit s ' ').filter (fun w => ! (jsTrim w == ""))).map stripNonWordChars

/-- The sanitized search term: the tokens joined with `" & "`. -/
def sanitizeSearchTerm (s : String) : String :=
  joinSep " & " (sanitizeTokens s)

/-- The shared parameter accumulator of one `searchTrails` call:
the `params` array together with the `paramCount` counter
(src/models/TrailSearch.js:60-61). -/
structure Binder where
  params : List JSVal
  paramCount : Nat
deriving DecidableEq, Repr

/-- `addParam` (src/models/TrailSearch.js:63-67): push the value, increment
the counter, return the `$N` placeholder for the new counter value. -/
def addParam (b : Binder) (v : JSVal) : String × Binder :=
  let params' := b.params ++ [v]
  let count' := b.paramCount + 1
  ("$" ++ toString count', ⟨params', count'⟩)

/-- A sequence of `addParam` calls: returns the placeholder tokens in call
order together with the final binder. -/
def runBinder : Binder → List JSVal → List String × Binder
  | b, [] => ([], b)
  | b, v :: vs =>
    let (tok, b') := addParam b v
    let (toks, b'') := runBinder b' vs
    (tok :: toks, b'')

/-- The placeholder tokens `$start+1, ..., $start+n`. -/
def tokensFrom : Nat → Nat → List String
  | _, 0 => []
  | start, n + 1 => ("$" ++ toString (start + 1)) :: tokensFrom (start + 1) n

/-- One fragment appended to the WHERE clause.  Each constructor records
the placeholder tokens and column expressions interpolated into the
corresponding template literal of the source; `fragToString` renders the
literal. -/
inductive Frag where
  /-- the full-text predicate (src/models/TrailSearch.js:89) -/
  | textSearch (tok : String)
  /-- the features subquery (src/models/TrailSearch.js:99-107); `n` is the
  interpolated `filters.features.length` -/
  | featuresSub (tok : String) (n : Nat)
  /-- `difficulty` / `type`: `col = ANY(tok::text[])` -/
  | anyEq (col tok : String)
  /-- paired distance bounds: `col BETWEEN tok1 AND tok2` -/
  | between (col tok1 tok2 : String)
  /-- a single comparison `col op tok` (distance `>=`/`<=`, elevation) -/
  | cmp (col op tok : String)
  /-- generic branch, numeric side of the ternary: `AND col = tok` -/
  | eqNum (col tok : String)
  /-- generic branch, other side of the ternary: `AND LOWER (col) = tok` -/
  | eqLower (col tok : String)
deriving DecidableEq, Repr

/-- Renders a fragment as the source's template literal, with the inner
whitespace of multi-line literals normalised to single spaces. -/
def fragToString : Frag → String
  | .textSearch tok =>
    " AND to_tsvector('english', t.name || ' ' || t.city || ' ' || t.state)" ++
      " @@ to_tsquery('english', " ++ tok ++ ") "
  | .featuresSub tok n =>
    " AND t.id IN ( SELECT tf.trail_id FROM trail_features tf" ++
      " JOIN features f ON tf.feature_id = f.id" ++
      " WHERE f.feature_name = ANY(" ++ tok ++ "::text[])" ++
      " GROUP BY tf.trail_id" ++
      " HAVING COUNT(DISTINCT LOWER(f.feature_name)) = " ++ toString n ++ " ) "
  | .anyEq col tok => " AND " ++ col ++ " = ANY(" ++ tok ++ "::text[]) "
  | .between col tok1 tok2 =>
    " AND " ++ col ++ " BETWEEN " ++ tok1 ++ " AND " ++ tok2 ++ " "
  | .cmp col op tok => " AND " ++ col ++ " " ++ op ++ " " ++ tok ++ " "
  | .eqNum col tok => "AND " ++ col ++ " = " ++ tok
  | .eqLower col tok => "AND LOWER (" ++ col ++ ") = " ++ tok

/-- The WHERE clause: the fixed base predicate followed by the fragments. -/
def whereToString (frags : List Frag) : String :=
  " WHERE 1=1 " ++ String.join (frags.map fragToString)

/-- Modelled from the spec: the `jsToSqlFilters` field-name lookup table
lives in `helpers/objectMaps.js`, which is not part of the sources; the
spec describes it as "a static mapping from client-facing filter-key to
underlying storage column expression (unit-qualified for distance/elevation
fields)".  The unit-qualified distance and elevation keys and the direct
keys documented for `searchTrails` (`city`, `state`, `dogsAllowed`) are
modelled here, with column expressions following the query's table aliases
(`t` = trails, `ts` = trail_stats). -/
def jsToSqlFilters : List (String × String) :=
  [("city", "t.city"), ("state", "t.state"), ("dogsAllowed", "t.dogs_allowed"),
   ("minDistanceImperial", "ts.distance_imperial"),
   ("maxDistanceImperial", "ts.distance_imperial"),
   ("minDistanceMetric", "ts.distance_metric"),
   ("maxDistanceMetric", "ts.distance_metric"),
   ("minElevationImperial", "ts.elevation_high_imperial"),
   ("maxElevationImperial", "ts.elevation_high_imperial"),
   ("minElevationMetric", "ts.elevation_high_metric"),
   ("maxElevationMetric", "ts.elevation_high_metric"),
   ("minElevationGainImperial", "ts.elevation_gain_imperial"),
   ("maxElevationGainImperial", "ts.elevation_gain_imperial"),
   ("minElevationGainMetric", "ts.elevation_gain_metric"),
   ("maxElevationGainMetric", "ts.elevation_gain_metric"),
   ("minElevationLossImperial", "ts.elevation_loss_imperial"),
   ("maxElevationLossImperial", "ts.elevation_loss_imperial"),
   ("minElevationLossMetric", "ts.elevation_loss_metric"),
   ("maxElevationLossMetric", "ts.elevation_loss_metric")]

/-- `table.get(key)` on a field-name lookup table. -/
def lookupTable (t : List (String × String)) (k : String) : Option String :=
  (t.find? (fun p => p.1 == k)).map (fun p => p.2)

/-- The mutable state threaded through the predicate-build phase of one
`searchTrails` call: the fragments appended to the WHERE clause so far,
the parameter binder, and the (mutated) filter map. -/
structure ComposeState where
  frags : List Frag
  binder : Binder
  filters : FilterMap
deriving DecidableEq, Repr

/-- `addDistanceFilters` (src/models/TrailSearch.js:198-233).  The key `k`
is the dispatched one (`minDistance` or `maxDistance`); `currentKey` and
`nextKey` are the unit-qualified names; `noUnitCurKey`/`noUnitNextKey` are
their first 11 characters (`slice(0, 11)`).  The paired branch is taken
when `filters[nextKey]` — the unit-qualified opposite key — is truthy; it
swaps the values under the unit-stripped keys when the current one
compares greater, binds both, deletes both unit-stripped entries and
emits a BETWEEN fragment.  Otherwise a single-sided `>=`/`<=` fragment is
emitted (the `max` side against `nextSqlKey`) and the unit-stripped
current entry is deleted. -/
def addDistanceFilters (table : List (String × String)) (unit : String)
    (k : String) (st : ComposeState) : Except String ComposeState :=
  let distType := if strStartsWith k "min" then "min" else "max"
  let currentKey := distType ++ "Distance" ++ unit
  let nextKey := (if distType == "min" then "max" else "min") ++ "Distance" ++ unit
  let currentSqlKey := lookupTable table currentKey
  let nextSqlKey := lookupTable table nextKey
  let noUnitCurKey := strSlice0 currentKey 11
  let noUnitNextKey := strSlice0 nextKey 11
  match currentSqlKey, nextSqlKey with
  | some curCol, some nextCol =>
    if truthy (getVal st.filters nextKey) then
      let fm1 :=
        if jsGt (getVal st.filters noUnitCurKey) (getVal st.filters noUnitNextKey) then
          let va := jsValOrUndefined st.filters noUnitCurKey
          let vb := jsValOrUndefined st.filters noUnitNextKey
          setVal (setVal st.filters noUnitCurKey vb) noUnitNextKey va
        else st.filters
      let (tok1, b1) := addParam st.binder (jsValOrUndefined fm1 noUnitCurKey)
      let (tok2, b2) := addParam b1 (jsValOrUndefined fm1 noUnitNextKey)
      let fm2 := delVal (delVal fm1 noUnitCurKey) noUnitNextKey
      .ok ⟨st.frags ++ [.between curCol tok1 tok2], b2, fm2⟩
    else
      let (tok, b1) := addParam st.binder (jsValOrUndefined st.filters noUnitCurKey)
      let fm1 := delVal st.filters noUnitCurKey
      .ok ⟨st.frags ++
        [if distType == "min" then Frag.cmp curCol ">=" tok
         else Frag.cmp nextCol "<=" tok], b1, fm1⟩
  | _, _ => .error ("Invalid filter key: " ++ k)

/-- `addElevationFilters` (src/models/TrailSearch.js:180-194).  Resolves
the unit-qualified column for `key + unit`, binds the raw value once and
emits the fragment `` AND col ${filterParam}= $n `` — note the literal `=`
appended to the comparator in the source template, so the emitted operator
is `>=` for a `min` key and `<=` for a `max` key. -/
def addElevationFilters (table : List (String × String)) (unit : String)
    (k : String) (st : ComposeState) : Except String ComposeState :=
  let elevType := if strStartsWith k "min" then "min" else "max"
  let filterParam := if elevType == "min" then ">" else "<"
  let currentKey := k ++ unit
  match lookupTable table currentKey with
  | none => .error ("Invalid filter key: " ++ k)
  | some col =>
    let (tok, b1) := addParam st.binder (jsValOrUndefined st.filters k)
    .ok ⟨st.frags ++ [.cmp col (filterParam ++ "=") tok], b1, st.filters⟩

/-- The six elevation-family keys dispatched to `addElevationFilters`
(src/models/TrailSearch.js:122), in source order. -/
def elevationKeys : List String :=
  ["minElevation", "maxElevation", "minElevationLoss", "maxElevationLoss",
   "minElevationGain", "maxElevationGain"]

/-- One iteration of the per-key dispatch loop of `searchTrails`
(src/models/TrailSearch.js:93-134) for the key `k`, in the source's branch
order: `features`, `difficulty`, `type`, the distance pair, the elevation
family, then the generic lookup-table branch (where
`Number(filters[key]) != NaN` always holds, see `numberNeNaN`). -/
def processKey (table : List (String × String)) (unit : String)
    (st : ComposeState) (k : String) : Except String ComposeState :=
  if k == "features" then
    match getVal st.filters "features" with
    | some (.arr xs) =>
      let (tok, b1) := addParam st.binder (.arr xs)
      .ok ⟨st.frags ++ [.featuresSub tok xs.length], b1, st.filters⟩
    | _ => .error "Features filter must be an array"
  else if k == "difficulty" then
    let (tok, b1) := addParam st.binder (jsValOrUndefined st.filters "difficulty")
    .ok ⟨st.frags ++ [.anyEq "t.difficulty" tok], b1, st.filters⟩
  else if k == "type" then
    let (tok, b1) := addParam st.binder (jsValOrUndefined st.filters "type")
    .ok ⟨st.frags ++ [.anyEq "ts.type" tok], b1, st.filters⟩
  else if k == "minDistance" || k == "maxDistance" then
    if ! truthy (getVal st.filters k) then .ok st
    else addDistanceFilters table unit k st
  else if elevationKeys.contains k then
    if ! truthy (getVal st.filters k) then .ok st
    else addElevationFilters table unit k st
  else
    match lookupTable table k with
    | some col =>
      let (tok, b1) := addParam st.binder (jsValOrUndefined st.filters k)
      .ok ⟨st.frags ++
        [if numberNeNaN (jsValOrUndefined st.filters k) then Frag.eqNum col tok
         else Frag.eqLower col tok], b1, st.filters⟩
    | none => .ok st

/-- The dispatch loop: `Object.keys(filters)` is snapshotted before the
loop, while `filters[...]` reads inside the loop see the mutations made by
the builders. -/
def composeFilters (table : List (String × String)) (unit : String)
    (st : ComposeState) (keys : List String) : Except String ComposeState :=
  match keys with
  | [] => .ok st
  | k :: ks => do
    let st' ← processKey table unit st k
    composeFilters table unit st' ks

/-- The search-term phase (src/models/TrailSearch.js:80-90): a truthy
(non-empty) search term is sanitized, bound as `%…%` and appended as the
full-text fragment. -/
def composeSearchTerm (searchTerm : Option String) (st : ComposeState) :
    ComposeState :=
  match searchTerm with
  | some s =>
    if ¬ s = "" then
      let (tok, b1) := addParam st.binder
        (.str ("%" ++ sanitizeSearchTerm s ++ "%"))
      ⟨st.frags ++ [.textSearch tok], b1, st.filters⟩
    else st
  | none => st

/-- The whole predicate-build phase of `searchTrails`: the search-term
fragment, then the dispatch loop over the snapshotted keys of the filter
map (when one was supplied). -/
def buildWhere (searchTerm : Option String) (filters : Option FilterMap)
    (unit : String) (table : List (String × String)) :
    Except String ComposeState :=
  let st0 : ComposeState := ⟨[], ⟨[], 0⟩, []⟩
  let st1 := composeSearchTerm searchTerm st0
  match filters with
  | some fm =>
    composeFilters table unit { st1 with filters := fm } (fm.map (fun p => p.1))
  | none => .ok st1

/-- The base SELECT of the id-fetch query (src/models/TrailSearch.js:69-76),
whitespace normalised. -/
def baseQueryText : String :=
  "SELECT DISTINCT t.id FROM trails t" ++
    " LEFT JOIN trail_features tf ON t.id = tf.trail_id" ++
    " LEFT JOIN features f ON tf.feature_id = f.id" ++
    " LEFT JOIN trail_stats ts ON t.id = ts.trail_id "

/-- The COUNT query (src/models/TrailSearch.js:137-141). -/
def countQueryText (whereClause : String) : String :=
  "SELECT COUNT(DISTINCT t.id) AS total_count FROM trails t" ++
    " LEFT JOIN trail_features tf ON t.id = tf.trail_id" ++
    " LEFT JOIN features f ON tf.feature_id = f.id" ++
    " LEFT JOIN trail_stats ts ON t.id = ts.trail_id " ++ whereClause

/-- The two `addParam` calls for limit and offset
(src/models/TrailSearch.js:147-148): limit token, offset token, final
binder. -/
def finalBinder (st : ComposeState) (limit offset : Int) :
    String × String × Binder :=
  let (limitTok, b1) := addParam st.binder (.num (limit : Rat))
  let (offsetTok, b2) := addParam b1 (.num (offset : Rat))
  (limitTok, offsetTok, b2)

/-- The id-fetch query text (src/models/TrailSearch.js:150). -/
def finalQueryText (st : ComposeState) (limit offset : Int) : String :=
  baseQueryText ++ whereToString st.frags ++
    " LIMIT " ++ (finalBinder st limit offset).1 ++
    " OFFSET " ++ (finalBinder st limit offset).2.1

/-- The underlying query engine: the COUNT query returns a row count, the
id-fetch query returns the matching trail ids; either can fail with an
error message. -/
structure QueryEngine where
  count : String → List JSVal → Except String Nat
  ids : String → List JSVal → Except String (List Int)

/-- The trail-hydration collaborator `Trail.getFullTrailsByIds`
(src/models/TrailSearch.js:156): maps an id list and the optional user id
to hydrated trail records, or fails. -/
def Hydrator (α : Type) : Type :=
  List Int → Option Int → Except String (List α)

/-- The `{ totalCount, trails }` result of a search. -/
structure SearchResult (α : Type) where
  totalCount : Nat
  trails : List α
deriving DecidableEq, Repr

/-- The body of the `try` block of `searchTrails`
(src/models/TrailSearch.js:58-166): build the predicate, run the COUNT
query, bind limit and offset, run the id-fetch query, and hydrate the ids
only when at least one row came back. -/
def searchTrailsInner {α : Type} (engine : QueryEngine) (hydrate : Hydrator α)
    (searchTerm : Option String) (page limit : Int)
    (filters : Option FilterMap) (userId : Option Int) (unit : String) :
    Except String (SearchResult α) :=
  let offset := (page - 1) * limit
  match buildWhere searchTerm filters unit jsToSqlFilters with
  | .error e => .error e
  | .ok st =>
    match engine.count (countQueryText (whereToString st.frags))
        st.binder.params with
    | .error e => .error e
    | .ok totalCount =>
      match engine.ids (finalQueryText st limit offset)
          (finalBinder st limit offset).2.2.params with
      | .error e => .error e
      | .ok rows =>
        if rows.length > 0 then
          match hydrate rows userId with
          | .error e => .error e
          | .ok trails => .ok ⟨totalCount, trails⟩
        else .ok ⟨totalCount, []⟩

/-- `searchTrails` (src/models/TrailSearch.js:55-174): the whole `try`
body runs under a single `catch` that logs the original error and throws
`Error('Error executing search query')`, so every failure — including the
validation throw for a non-array `features` filter — reaches the caller
as that one generic error. -/
def searchTrails {α : Type} (engine : QueryEngine) (hydrate : Hydrator α)
    (searchTerm : Option String) (page limit : Int)
    (filters : Option FilterMap) (userId : Option Int) (unit : String) :
    Except String (SearchResult α) :=
  match searchTrailsInner engine hydrate searchTerm page limit filters
      userId unit with
  | .ok r => .ok r
  | .error _ => .error "Error executing search query"

/-- Satisfaction of the features subquery predicate
(src/models/TrailSearch.js:100-107) by a trail whose associated feature
names are `trailFeats`: among the trail's features, those exactly matching
an entry of the bound array are grouped, and the count of distinct
lower-cased names must equal the interpolated `n`. -/
def featuresSubHolds (boundArr : List String) (n : Nat)
    (trailFeats : List String) : Bool :=
  (((trailFeats.filter (fun f => boundArr.contains f)).map strToLower).dedup).length = n

/-- C3 counterexample: the sanitizer does not map `"Cave & Falls!"` to the
two tokens `"Cave"` and `"Falls"`; the `"&"` token survives the emptiness
filter (which runs before the punctuation stripping) and is stripped to an
empty token, so the joined expression is `"Cave &  & Falls"`, which
contains an empty token and differs from `"Cave & Falls"`. -/
theorem sanitizer_cave_falls_cex :
    ¬ sanitizeSearchTerm "Cave & Falls!" = "Cave & Falls" ∧
    "" ∈ sanitizeTokens "Cave & Falls!" := by
  constructor
  · decide
  · decide

/-- C3 (amended): the sanitizer maps `"Cave & Falls!"` to the surviving
tokens `"Cave"`, `""` and `"Falls"` — the `"&"` token survives the
emptiness filter, which runs before the stripping, and becomes empty — so
the joined full-text expression is `"Cave &  & Falls"`. -/
theorem sanitizer_cave_falls_amended :
    sanitizeTokens "Cave & Falls!" = ["Cave", "", "Falls"] ∧
    sanitizeSearchTerm "Cave & Falls!" = "Cave &  & Falls" := by
  exact ⟨rfl, rfl⟩

/-- C1 (code bug, evaluation at the failing input): for the filter map
`{minDistance: 5, maxDistance: 2}` — an inverted pair under the unitless
key names that `searchTrails` itself dispatches on — no swap happens and
no BETWEEN fragment is emitted: the pairing test `filters[nextKey]` checks
the unit-qualified opposite key (`maxDistanceImperial`), which is absent,
so each bound is processed alone and the build yields the two single-sided
fragments `>= $1` and `<= $2` with the parameters `[5, 2]` unswapped (an
unsatisfiable range). -/
theorem distance_pair_unitless_no_swap_eval :
    buildWhere none
        (some [("minDistance", JSVal.num 5), ("maxDistance", JSVal.num 2)])
        "Imperial" jsToSqlFilters =
      Except.ok ⟨[Frag.cmp "ts.distance_imperial" ">=" "$1",
                  Frag.cmp "ts.distance_imperial" "<=" "$2"],
        ⟨[JSVal.num 5, JSVal.num 2], 2⟩, []⟩ := by
  rfl

/-- The generic branch's guard `Number(filters[key]) != NaN` holds for
every value. -/
theorem numberNeNaN_true (v : JSVal) : numberNeNaN v = true := by
  unfold numberNeNaN jsLooseEqNaN
  cases jsToNumber (some v) <;> rfl

/-- C4 (code bug, evaluation at the failing input): the guard
`Number(filters[key]) != NaN` of the generic branch holds for every value
(nothing is loosely equal to NaN), so the branch always emits the plain
equality fragment and never the `LOWER (...)` one; in particular the
non-numeric string filter `{city: "Huntsville"}` is bound to the
case-sensitive fragment `AND t.city = $1`. -/
theorem generic_equality_always_numeric :
    (∀ v : JSVal, numberNeNaN v = true) ∧
    buildWhere none (some [("city", JSVal.str "Huntsville")]) "Imperial"
        jsToSqlFilters =
      Except.ok ⟨[Frag.eqNum "t.city" "$1"],
        ⟨[JSVal.str "Huntsville"], 1⟩,
        [("city", JSVal.str "Huntsville")]⟩ ∧
    ¬ Frag.eqNum "t.city" "$1" = Frag.eqLower "t.city" "$1" := by
  exact ⟨numberNeNaN_true, rfl, by decide⟩

/-- C7 counterexample: a search term consisting entirely of whitespace is
truthy in JS, so `searchTrails` does not skip the text predicate for
`"   "`: the full-text fragment is appended and the parameter `"%%"`
(the empty sanitized expression wrapped in percent signs) is bound. -/
theorem whitespace_term_emits_predicate_cex :
    buildWhere (some "   ") none "Imperial" jsToSqlFilters =
      Except.ok ⟨[Frag.textSearch "$1"], ⟨[JSVal.str "%%"], 1⟩, []⟩ ∧
    ¬ ([Frag.textSearch "$1"] = ([] : List Frag)) ∧
    ¬ ([JSVal.str "%%"] = ([] : List JSVal)) := by
  refine ⟨rfl, by decide, by decide⟩

/-- C7 (amended): only an absent or empty search term skips the text
predicate (no fragment, no bound parameter); every non-empty term —
including a whitespace-only one — appends the full-text fragment and binds
the percent-wrapped sanitized expression. -/
theorem search_term_skip_amended (s : String) (unit : String)
    (table : List (String × String)) (h : ¬ s = "") :
    buildWhere none none unit table = Except.ok ⟨[], ⟨[], 0⟩, []⟩ ∧
    buildWhere (some "") none unit table = Except.ok ⟨[], ⟨[], 0⟩, []⟩ ∧
    buildWhere (some s) none unit table =
      Except.ok ⟨[Frag.textSearch "$1"],
        ⟨[JSVal.str ("%" ++ sanitizeSearchTerm s ++ "%")], 1⟩, []⟩ := by
  refine ⟨rfl, rfl, ?_⟩
  simp [buildWhere, composeSearchTerm, h, addParam]
  rfl

/-- Witness for C7's amended theorem at the whitespace-only term. -/
theorem search_term_skip_amended_witness :
    (¬ "   " = "") ∧
    buildWhere (some "   ") none "Imperial" jsToSqlFilters =
      Except.ok ⟨[Frag.textSearch "$1"],
        ⟨[JSVal.str ("%" ++ sanitizeSearchTerm "   " ++ "%")], 1⟩, []⟩ := by
  have h : ¬ "   " = "" := by decide
  exact ⟨h, (search_term_skip_amended "   " "Imperial" jsToSqlFilters h).2.2⟩

/-- C8: for every sequence of `addParam` calls starting from a binder
whose counter agrees with its parameter list, the values are appended in
call order (the Nth call appends the Nth element), the counter always
equals the list length (so each returned token `$N` is the new list
length), and exactly one placeholder token is returned per pushed value:
the tokens are `$(len+1), $(len+2), ...` in order. -/
theorem addParam_position_invariant (b : Binder) (vs : List JSVal)
    (h : b.paramCount = b.params.length) :
    (runBinder b vs).2.params = b.params ++ vs ∧
    (runBinder b vs).2.paramCount = (runBinder b vs).2.params.length ∧
    (runBinder b vs).1 = tokensFrom b.params.length vs.length ∧
    (runBinder b vs).1.length = vs.length := by
  induction vs generalizing b with
  | nil => simp [runBinder, tokensFrom, h]
  | cons v vs ih =>
    have h' : (addParam b v).2.paramCount = (addParam b v).2.params.length := by
      simp [addParam, h]
    obtain ⟨ih1, ih2, ih3, ih4⟩ := ih (addParam b v).2 h'
    refine ⟨?_, ?_, ?_, ?_⟩
    · simp [runBinder, addParam] at ih1 ⊢
      simp [ih1]
    · simpa [runBinder, addParam] using ih2
    · simp [runBinder, addParam, tokensFrom, h] at ih3 ⊢
      simpa using ih3
    · simpa [runBinder, addParam] using ih4

/-- Witness for C8's invariant at a fresh binder and two pushed values. -/
theorem addParam_position_invariant_witness :
    ((Binder.mk [] 0).paramCount = (Binder.mk [] 0).params.length) ∧
    ((runBinder ⟨[], 0⟩ [JSVal.num 10, JSVal.num 0]).2.params =
        (Binder.mk [] 0).params ++ [JSVal.num 10, JSVal.num 0] ∧
      (runBinder ⟨[], 0⟩ [JSVal.num 10, JSVal.num 0]).2.paramCount =
        (runBinder ⟨[], 0⟩ [JSVal.num 10, JSVal.num 0]).2.params.length ∧
      (runBinder ⟨[], 0⟩ [JSVal.num 10, JSVal.num 0]).1 =
        tokensFrom (Binder.mk [] 0).params.length
          [JSVal.num 10, JSVal.num 0].length ∧
      (runBinder ⟨[], 0⟩ [JSVal.num 10, JSVal.num 0]).1.length =
        [JSVal.num 10, JSVal.num 0].length) :=
  ⟨rfl, addParam_position_invariant ⟨[], 0⟩ [JSVal.num 10, JSVal.num 0] rfl⟩

/-- C2 counterexample: for the truthy, resolvable elevation filter
`{minElevation: 100}` (unit Imperial) the emitted comparison operator is
the inclusive `>=` — the source template appends a literal `=` after the
comparator — not the strict `>` the claim states. -/
theorem elevation_strict_op_cex :
    processKey jsToSqlFilters "Imperial"
        ⟨[], ⟨[], 0⟩, [("minElevation", JSVal.num 100)]⟩ "minElevation" =
      Except.ok ⟨[Frag.cmp "ts.elevation_high_imperial" ">=" "$1"],
        ⟨[JSVal.num 100], 1⟩, [("minElevation", JSVal.num 100)]⟩ ∧
    ¬ Frag.cmp "ts.elevation_high_imperial" ">=" "$1" =
      Frag.cmp "ts.elevation_high_imperial" ">" "$1" := by
  exact ⟨rfl, by decide⟩

/-- C2 (amended): for every elevation-family key with a truthy value and a
resolvable unit-qualified lookup entry, the dispatch emits exactly one
single-sided comparison fragment, binding the raw value once; the operator
is the inclusive `>=` for a `min` key and `<=` for a `max` key (the
source's `${filterParam}=` template). -/
theorem elevation_filter_inclusive_cmp (table : List (String × String))
    (unit k col : String) (st : ComposeState)
    (hk : k ∈ elevationKeys)
    (ht : truthy (getVal st.filters k) = true)
    (hcol : lookupTable table (k ++ unit) = some col) :
    processKey table unit st k =
      Except.ok ⟨st.frags ++
        [Frag.cmp col ((if strStartsWith k "min" then ">" else "<") ++ "=")
          ("$" ++ toString (st.binder.paramCount + 1))],
        ⟨st.binder.params ++ [jsValOrUndefined st.filters k],
         st.binder.paramCount + 1⟩, st.filters⟩ := by
  simp only [elevationKeys, List.mem_cons, List.not_mem_nil, or_false] at hk
  rcases hk with rfl | rfl | rfl | rfl | rfl | rfl <;>
    simp [processKey, addElevationFilters, elevationKeys, ht, hcol, addParam]

/-- Witness for C2's amended theorem at `{maxElevationGain: 50}`, metric. -/
theorem elevation_filter_inclusive_cmp_witness :
    ("maxElevationGain" ∈ elevationKeys) ∧
    (truthy (getVal [("maxElevationGain", JSVal.num 50)] "maxElevationGain")
      = true) ∧
    (lookupTable jsToSqlFilters ("maxElevationGain" ++ "Metric") =
      some "ts.elevation_gain_metric") ∧
    processKey jsToSqlFilters "Metric"
        ⟨[], ⟨[], 0⟩, [("maxElevationGain", JSVal.num 50)]⟩
        "maxElevationGain" =
      Except.ok ⟨[] ++
        [Frag.cmp "ts.elevation_gain_metric"
          ((if strStartsWith "maxElevationGain" "min" then ">" else "<") ++ "=")
          ("$" ++ toString ((Binder.mk [] 0).paramCount + 1))],
        ⟨(Binder.mk [] 0).params ++
          [jsValOrUndefined [("maxElevationGain", JSVal.num 50)] "maxElevationGain"],
         (Binder.mk [] 0).paramCount + 1⟩,
        [("maxElevationGain", JSVal.num 50)]⟩ := by
  refine ⟨by decide, by decide, by rfl, ?_⟩
  exact elevation_filter_inclusive_cmp jsToSqlFilters "Metric"
    "maxElevationGain" "ts.elevation_gain_metric"
    ⟨[], ⟨[], 0⟩, [("maxElevationGain", JSVal.num 50)]⟩
    (by decide) (by decide) (by rfl)

/-- `Array.isArray`. -/
def isArrayVal : JSVal → Bool
  | .arr _ => true
  | _ => false

/-- A list's `toFinset` commutes with `map` into an `image`. -/
theorem list_toFinset_map {α β : Type} [DecidableEq α] [DecidableEq β]
    (f : α → β) (l : List α) : (l.map f).toFinset = l.toFinset.image f := by
  ext b
  simp [List.mem_toFinset, List.mem_map, Finset.mem_image]

/-- The count-distinct-equals-length argument: when the count of distinct
lower-cased matched feature names equals the length of the listed array,
the trail carries every listed feature.  (Equality of the cardinality
chain forces the listed array to be duplicate-free, lower-casing to be
injective on it, and the matched set to exhaust it.) -/
theorem featuresSubHolds_requires_all (xs fts : List String)
    (h : featuresSubHolds xs xs.length fts = true) :
    ∀ x ∈ xs, x ∈ fts := by
  have hlen :
      (((fts.filter (fun f => xs.contains f)).map strToLower).dedup).length
        = xs.length := by
    simpa [featuresSubHolds] using h
  set matched := fts.filter (fun f => xs.contains f) with hmatched
  have hM : matched.toFinset ⊆ xs.toFinset := by
    intro a ha
    rw [List.mem_toFinset] at ha
    rw [List.mem_toFinset]
    have := List.mem_filter.mp (hmatched ▸ ha)
    simpa using this.2
  have hcard : ((matched.toFinset).image strToLower).card = xs.length := by
    rw [← list_toFinset_map, List.card_toFinset]
    exact hlen
  have c1 : ((matched.toFinset).image strToLower).card ≤
      ((xs.toFinset).image strToLower).card :=
    Finset.card_le_card (Finset.image_subset_image hM)
  have c2 : ((xs.toFinset).image strToLower).card ≤ xs.toFinset.card :=
    Finset.card_image_le
  have c3 : xs.toFinset.card ≤ xs.length := List.toFinset_card_le xs
  have himg : (matched.toFinset).image strToLower =
      (xs.toFinset).image strToLower :=
    Finset.eq_of_subset_of_card_le (Finset.image_subset_image hM)
      (by omega)
  have hinj : Set.InjOn strToLower xs.toFinset :=
    Finset.injOn_of_card_image_eq (by omega)
  intro x hx
  have hxA : x ∈ xs.toFinset := List.mem_toFinset.mpr hx
  have hgx : strToLower x ∈ (xs.toFinset).image strToLower :=
    Finset.mem_image_of_mem strToLower hxA
  rw [← himg] at hgx
  obtain ⟨m, hmM, hgm⟩ := Finset.mem_image.mp hgx
  have hmA : m ∈ xs.toFinset := hM hmM
  have hmx : m = x := hinj (Finset.mem_coe.mpr hmA) (Finset.mem_coe.mpr hxA) hgm
  have : x ∈ matched := List.mem_toFinset.mp (hmx ▸ hmM)
  exact (List.mem_filter.mp (hmatched ▸ this)).1

/-- C6: a `features` filter whose value is not an array makes the
predicate composition fail with the features-validation error; an array
value `xs` is bound once and emits exactly the features subquery fragment
with `n = xs.length`; and that fragment's predicate is satisfied only by
trails associated with every listed feature — never by a strict subset. -/
theorem features_filter_requires_all (v : JSVal) (xs fts : List String) :
    (isArrayVal v = false →
      buildWhere none (some [("features", v)]) "Imperial" jsToSqlFilters =
        Except.error "Features filter must be an array") ∧
    (buildWhere none (some [("features", JSVal.arr xs)]) "Imperial"
        jsToSqlFilters =
      Except.ok ⟨[Frag.featuresSub "$1" xs.length], ⟨[JSVal.arr xs], 1⟩,
        [("features", JSVal.arr xs)]⟩) ∧
    (featuresSubHolds xs xs.length fts = true → ∀ x ∈ xs, x ∈ fts) := by
  refine ⟨?_, ?_, featuresSubHolds_requires_all xs fts⟩
  · intro hv
    cases v <;> first
      | rfl
      | simp [isArrayVal] at hv
  · simp [buildWhere, composeSearchTerm, composeFilters, processKey, getVal,
      addParam]
    rfl

/-- Witness for C6 at a non-array value, a two-feature array, and a trail
carrying both features. -/
theorem features_filter_requires_all_witness :
    (isArrayVal (JSVal.str "oops") = false) ∧
    buildWhere none (some [("features", JSVal.str "oops")]) "Imperial"
        jsToSqlFilters =
      Except.error "Features filter must be an array" ∧
    buildWhere none (some [("features", JSVal.arr ["Cave", "Waterfall"])])
        "Imperial" jsToSqlFilters =
      Except.ok ⟨[Frag.featuresSub "$1" 2],
        ⟨[JSVal.arr ["Cave", "Waterfall"]], 1⟩,
        [("features", JSVal.arr ["Cave", "Waterfall"])]⟩ ∧
    (featuresSubHolds ["Cave", "Waterfall"] 2
      ["Waterfall", "Creek", "Cave"] = true) ∧
    "Cave" ∈ ["Waterfall", "Creek", "Cave"] ∧
    "Waterfall" ∈ ["Waterfall", "Creek", "Cave"] := by
  have H := features_filter_requires_all (JSVal.str "oops")
    ["Cave", "Waterfall"] ["Waterfall", "Creek", "Cave"]
  refine ⟨by decide, H.1 rfl, H.2.1, by decide, ?_, ?_⟩
  · exact H.2.2 (by decide) "Cave" (by decide)
  · exact H.2.2 (by decide) "Waterfall" (by decide)

/-- When `addDistanceFilters` appends a BETWEEN fragment (starting from an
empty fragment list), the unit-qualified opposite bound key was truthy in
the filter map: the single-sided `else` branch appends only a `cmp`
fragment. -/
theorem strStartsWith_minDistance_min :
    strStartsWith "minDistance" "min" = true := rfl

theorem strStartsWith_maxDistance_min :
    strStartsWith "maxDistance" "min" = false := rfl

theorem append_min_Distance :
    ("min" ++ "Distance" : String) = "minDistance" := rfl

theorem append_max_Distance :
    ("max" ++ "Distance" : String) = "maxDistance" := rfl

theorem distance_between_pair_min (table : List (String × String))
    (unit : String) (st st' : ComposeState) (c t1 t2 : String)
    (hok : processKey table unit st "minDistance" = Except.ok st')
    (hfr : st.frags = [])
    (hmem : Frag.between c t1 t2 ∈ st'.frags) :
    truthy (getVal st.filters "minDistance") = true ∧
    truthy (getVal st.filters ("maxDistance" ++ unit)) = true := by
  by_cases ht : truthy (getVal st.filters "minDistance") = true
  · refine ⟨ht, ?_⟩
    have hok' : addDistanceFilters table unit "minDistance" st =
        Except.ok st' := by
      simpa [processKey, elevationKeys, ht] using hok
    simp only [addDistanceFilters, strStartsWith_minDistance_min, if_true,
      append_min_Distance, append_max_Distance] at hok'
    simp only [show (("min" == "min") = true) from rfl, if_true,
      append_min_Distance, append_max_Distance] at hok'
    rcases hcur : lookupTable table ("minDistance" ++ unit) with _ | curCol
    · simp [hcur] at hok'
    · rcases hnext : lookupTable table ("maxDistance" ++ unit) with _ | nextCol
      · simp [hcur, hnext] at hok'
      · by_cases htn : truthy (getVal st.filters ("maxDistance" ++ unit)) = true
        · exact htn
        · rw [Bool.not_eq_true] at htn
          simp [hcur, hnext, htn] at hok'
          rw [← hok'] at hmem
          simp [hfr] at hmem
  · rw [Bool.not_eq_true] at ht
    simp [processKey, elevationKeys, ht] at hok
    rw [← hok] at hmem
    simp [hfr] at hmem

/-- Same as `distance_between_pair_min` for the `maxDistance` key. -/
theorem distance_between_pair_max (table : List (String × String))
    (unit : String) (st st' : ComposeState) (c t1 t2 : String)
    (hok : processKey table unit st "maxDistance" = Except.ok st')
    (hfr : st.frags = [])
    (hmem : Frag.between c t1 t2 ∈ st'.frags) :
    truthy (getVal st.filters "maxDistance") = true ∧
    truthy (getVal st.filters ("minDistance" ++ unit)) = true := by
  by_cases ht : truthy (getVal st.filters "maxDistance") = true
  · refine ⟨ht, ?_⟩
    have hok' : addDistanceFilters table unit "maxDistance" st =
        Except.ok st' := by
      simpa [processKey, elevationKeys, ht] using hok
    simp only [addDistanceFilters, strStartsWith_maxDistance_min,
      Bool.false_eq_true, if_false, append_min_Distance,
      append_max_Distance] at hok'
    simp only [show (("max" == "min") = false) from rfl,
      Bool.false_eq_true, if_false, append_min_Distance,
      append_max_Distance] at hok'
    rcases hcur : lookupTable table ("maxDistance" ++ unit) with _ | curCol
    · simp [hcur] at hok'
    · rcases hnext : lookupTable table ("minDistance" ++ unit) with _ | nextCol
      · simp [hcur, hnext] at hok'
      · by_cases htn : truthy (getVal st.filters ("minDistance" ++ unit)) = true
        · exact htn
        · rw [Bool.not_eq_true] at htn
          simp [hcur, hnext, htn] at hok'
          rw [← hok'] at hmem
          simp [hfr] at hmem
  · rw [Bool.not_eq_true] at ht
    simp [processKey, elevationKeys, ht] at hok
    rw [← hok] at hmem
    simp [hfr] at hmem

/-- C10: the unit-qualified distance key names are never dispatched to the
distance range builder — each is handled by the generic branch, emitting a
direct equality fragment when the lookup table has an entry and nothing
otherwise; and the paired BETWEEN branch of the distance builder runs only
when the dispatched unitless key is truthy and the unit-qualified opposite
key is simultaneously truthy in the filter map. -/
theorem unit_qualified_distance_generic_dispatch :
    (∀ (table : List (String × String)) (unit : String) (st : ComposeState)
        (k : String),
      k ∈ ["minDistanceImperial", "maxDistanceImperial",
           "minDistanceMetric", "maxDistanceMetric"] →
      processKey table unit st k =
        (match lookupTable table k with
         | some col =>
           Except.ok ⟨st.frags ++ [Frag.eqNum col
             ("$" ++ toString (st.binder.paramCount + 1))],
             ⟨st.binder.params ++ [jsValOrUndefined st.filters k],
              st.binder.paramCount + 1⟩, st.filters⟩
         | none => Except.ok st)) ∧
    (∀ (table : List (String × String)) (unit : String)
        (st st' : ComposeState) (k c t1 t2 : String),
      (k = "minDistance" ∨ k = "maxDistance") →
      st.frags = [] →
      processKey table unit st k = Except.ok st' →
      Frag.between c t1 t2 ∈ st'.frags →
      truthy (getVal st.filters k) = true ∧
      truthy (getVal st.filters
        ((if strStartsWith k "min" then "max" else "min") ++ "Distance" ++
          unit)) = true) := by
  constructor
  · intro table unit st k hk
    simp only [List.mem_cons, List.not_mem_nil, or_false] at hk
    rcases hk with rfl | rfl | rfl | rfl <;>
      cases hcol : lookupTable table _ <;>
        simp [processKey, elevationKeys, hcol, addParam, numberNeNaN_true]
  · intro table unit st st' k c t1 t2 hk hfr hok hmem
    rcases hk with rfl | rfl
    · exact distance_between_pair_min table unit st st' c t1 t2 hok hfr hmem
    · exact distance_between_pair_max table unit st st' c t1 t2 hok hfr hmem

/-- Witness for C10: a unit-qualified key with a table entry yields the
generic equality fragment, one without an entry yields no change, and a
run of the paired BETWEEN branch certifies that both the unitless key and
the unit-qualified opposite key were truthy. -/
theorem unit_qualified_distance_generic_dispatch_witness :
    processKey jsToSqlFilters "Imperial"
        ⟨[], ⟨[], 0⟩, [("minDistanceImperial", JSVal.num 2)]⟩
        "minDistanceImperial" =
      Except.ok ⟨[Frag.eqNum "ts.distance_imperial" "$1"], ⟨[JSVal.num 2], 1⟩,
        [("minDistanceImperial", JSVal.num 2)]⟩ ∧
    processKey [] "Imperial"
        ⟨[], ⟨[], 0⟩, [("maxDistanceMetric", JSVal.num 4)]⟩
        "maxDistanceMetric" =
      Except.ok ⟨[], ⟨[], 0⟩, [("maxDistanceMetric", JSVal.num 4)]⟩ ∧
    (truthy (getVal [("minDistance", JSVal.num 1),
        ("maxDistanceImperial", JSVal.num 5)] "minDistance") = true ∧
      truthy (getVal [("minDistance", JSVal.num 1),
        ("maxDistanceImperial", JSVal.num 5)]
        ((if strStartsWith "minDistance" "min" then "max" else "min") ++
          "Distance" ++ "Imperial")) = true) := by
  have H := unit_qualified_distance_generic_dispatch
  refine ⟨?_, ?_, ?_⟩
  · have h1 := H.1 jsToSqlFilters "Imperial"
      ⟨[], ⟨[], 0⟩, [("minDistanceImperial", JSVal.num 2)]⟩
      "minDistanceImperial" (by decide)
    simpa using h1
  · have h2 := H.1 [] "Imperial"
      ⟨[], ⟨[], 0⟩, [("maxDistanceMetric", JSVal.num 4)]⟩
      "maxDistanceMetric" (by decide)
    simpa using h2
  · exact H.2 jsToSqlFilters "Imperial"
      ⟨[], ⟨[], 0⟩, [("minDistance", JSVal.num 1),
        ("maxDistanceImperial", JSVal.num 5)]⟩
      ⟨[Frag.between "ts.distance_imperial" "$1" "$2"],
        ⟨[JSVal.num 1, JSVal.undefined], 2⟩,
        [("maxDistanceImperial", JSVal.num 5)]⟩
      "minDistance" "ts.distance_imperial" "$1" "$2" (Or.inl rfl) rfl
      (by rfl) (by decide)

/-- A query engine whose two queries always succeed with no matches. -/
def okEngine : QueryEngine :=
  ⟨fun _ _ => Except.ok 0, fun _ _ => Except.ok []⟩

/-- A query engine whose queries fail the way a dropped connection does. -/
def failEngine : QueryEngine :=
  ⟨fun _ _ => Except.error "pg: connection terminated unexpectedly",
   fun _ _ => Except.error "pg: connection terminated unexpectedly"⟩

/-- A query engine that finds seven matches but returns no id rows. -/
def emptyRowsEngine : QueryEngine :=
  ⟨fun _ _ => Except.ok 7, fun _ _ => Except.ok []⟩

/-- A query engine that finds seven matches and returns one id row. -/
def oneRowEngine : QueryEngine :=
  ⟨fun _ _ => Except.ok 7, fun _ _ => Except.ok [3]⟩

/-- A hydrator that returns one fixed record. -/
def constHydrator : Hydrator Nat := fun _ _ => Except.ok [42]

/-- A hydrator that always fails, as the trail-lookup collaborator does on
an empty id set. -/
def failHydrator : Hydrator Nat := fun _ _ => Except.error "No trails found"

/-- A hydrator that returns no records. -/
def emptyHydrator : Hydrator Nat := fun _ _ => Except.ok []

/-- C5 counterexample: the validation error for a non-array `features`
filter is caught by the same outermost catch as execution failures and
surfaces as the identical generic `SearchExecutionError` message — not as
a distinct client error: the two calls below fail indistinguishably. -/
theorem validation_error_not_distinct_cex :
    searchTrails okEngine emptyHydrator none 1 10
        (some [("features", JSVal.str "oops")]) none "Imperial" =
      Except.error "Error executing search query" ∧
    searchTrails failEngine emptyHydrator none 1 10 none none "Imperial" =
      Except.error "Error executing search query" := by
  exact ⟨rfl, rfl⟩

/-- C5 (amended): validation errors are raised synchronously during
predicate composition, before any query executes — the outcome does not
depend on the query engine or the hydrator — but they are re-signalled as
the same generic error as execution failures; an execution failure is
likewise re-signalled generically, with a message independent of the
underlying error. -/
theorem error_wrapping_amended {α : Type} (e1 e2 : QueryEngine)
    (h1 h2 : Hydrator α) (term : Option String) (page limit : Int)
    (fm : Option FilterMap) (userId : Option Int) (unit msg : String) :
    (buildWhere term fm unit jsToSqlFilters = Except.error msg →
      searchTrails e1 h1 term page limit fm userId unit =
        Except.error "Error executing search query" ∧
      searchTrails e1 h1 term page limit fm userId unit =
        searchTrails e2 h2 term page limit fm userId unit) ∧
    (∀ st : ComposeState,
      buildWhere term fm unit jsToSqlFilters = Except.ok st →
      e1.count (countQueryText (whereToString st.frags)) st.binder.params =
        Except.error msg →
      searchTrails e1 h1 term page limit fm userId unit =
        Except.error "Error executing search query") := by
  constructor
  · intro hw
    constructor <;> simp [searchTrails, searchTrailsInner, hw]
  · intro st hw hc
    simp [searchTrails, searchTrailsInner, hw, hc]

/-- Witness for C5's amended theorem: a bad `features` value under any
engine, and a failing count query with a leak-prone message. -/
theorem error_wrapping_amended_witness :
    (searchTrails okEngine emptyHydrator none 1 10
        (some [("features", JSVal.str "oops")]) none "Imperial" =
      Except.error "Error executing search query" ∧
     searchTrails okEngine emptyHydrator none 1 10
        (some [("features", JSVal.str "oops")]) none "Imperial" =
      searchTrails failEngine constHydrator none 1 10
        (some [("features", JSVal.str "oops")]) none "Imperial") ∧
    searchTrails failEngine emptyHydrator none 1 10 none none "Imperial" =
      Except.error "Error executing search query" := by
  constructor
  · exact (error_wrapping_amended okEngine failEngine emptyHydrator
      constHydrator none 1 10 (some [("features", JSVal.str "oops")]) none
      "Imperial" "Features filter must be an array").1 rfl
  · exact (error_wrapping_amended failEngine failEngine emptyHydrator
      emptyHydrator none 1 10 none none "Imperial"
      "pg: connection terminated unexpectedly").2 ⟨[], ⟨[], 0⟩, []⟩ rfl rfl

/-- C9: whenever the id-fetch query returns zero rows, `searchTrails`
returns `{ totalCount, trails: [] }` with the count-query total and the
result does not depend on the hydrator (hydration is never invoked);
when rows come back, the hydrator is applied exactly to that non-empty row
id set and the acting user id. -/
theorem zero_rows_skips_hydration {α : Type} (engine : QueryEngine)
    (term : Option String) (page limit : Int) (fm : Option FilterMap)
    (userId : Option Int) (unit : String) (st : ComposeState) (n : Nat)
    (rows : List Int)
    (hw : buildWhere term fm unit jsToSqlFilters = Except.ok st)
    (hc : engine.count (countQueryText (whereToString st.frags))
      st.binder.params = Except.ok n)
    (hi : engine.ids (finalQueryText st limit ((page - 1) * limit))
      (finalBinder st limit ((page - 1) * limit)).2.2.params =
        Except.ok rows) :
    (rows = [] → ∀ hyd : Hydrator α,
      searchTrails engine hyd term page limit fm userId unit =
        Except.ok ⟨n, []⟩) ∧
    (¬ rows = [] → ∀ hyd : Hydrator α,
      searchTrails engine hyd term page limit fm userId unit =
        (match hyd rows userId with
         | Except.ok ts => Except.ok ⟨n, ts⟩
         | Except.error _ =>
           Except.error "Error executing search query")) := by
  constructor
  · intro hrows hyd
    subst hrows
    simp [searchTrails, searchTrailsInner, hw, hc, hi]
  · intro hrows hyd
    have hpos : rows.length > 0 := List.length_pos.mpr hrows
    cases hh : hyd rows userId <;>
      simp [searchTrails, searchTrailsInner, hw, hc, hi, hpos, hh]

/-- Witness for C9: with zero id rows the result is the same for a
succeeding and for a failing hydrator, and with one id row the hydrator's
records are returned. -/
theorem zero_rows_skips_hydration_witness :
    searchTrails emptyRowsEngine constHydrator none 1 10 none none
        "Imperial" = Except.ok ⟨7, ([] : List Nat)⟩ ∧
    searchTrails emptyRowsEngine failHydrator none 1 10 none none
        "Imperial" = Except.ok ⟨7, ([] : List Nat)⟩ ∧
    searchTrails oneRowEngine constHydrator none 1 10 none none
        "Imperial" = Except.ok ⟨7, [42]⟩ := by
  refine ⟨?_, ?_, ?_⟩
  · exact (zero_rows_skips_hydration emptyRowsEngine none 1 10 none none
      "Imperial" ⟨[], ⟨[], 0⟩, []⟩ 7 [] rfl rfl rfl).1 rfl constHydrator
  · exact (zero_rows_skips_hydration emptyRowsEngine none 1 10 none none
      "Imperial" ⟨[], ⟨[], 0⟩, []⟩ 7 [] rfl rfl rfl).1 rfl failHydrator
  · have := (zero_rows_skips_hydration oneRowEngine none 1 10 none none
      "Imperial" ⟨[], ⟨[], 0⟩, []⟩ 7 [3] rfl rfl rfl).2 (by decide)
      constHydrator
    simpa using this

end TrailWanderer
